import Mathlib

/-!
Verification of `auto_sqlServerBackup.py` (Preet-Govind/SqlServerBackUpScript).

The script is shallowly embedded: Python strings become `List Char`, the
filesystem becomes an explicit `FS` record threaded through the directory
functions, and each Python exception becomes a constructor of `PyErr`.
Functions keep the source's names.  The external effects (ODBC connection,
`BACKUP DATABASE` execution, SMTP delivery) are modelled by an environment
`Env` that fixes the outcome of each effect for one scheduled run.
-/

set_option linter.unusedVariables false

/-- Python `str` values are modelled as lists of characters. -/
abbrev Str := List Char

deriving instance DecidableEq for Except

/-- The decimal digit character for `n < 10` (ASCII `'0'` + n). -/
def digitChar (n : Nat) : Char := Char.ofNat (48 + n)

/-- Two-digit zero-padded rendering, the glibc `strftime` `%m`/`%d`/`%H`/`%M`/`%S`
field for in-range values. -/
def pad2 (n : Nat) : Str := [digitChar (n / 10 % 10), digitChar (n % 10)]

/-- Four-digit zero-padded rendering, the glibc `strftime` `%Y` field for
years in 1000..9999. -/
def pad4 (n : Nat) : Str :=
  [digitChar (n / 1000 % 10), digitChar (n / 100 % 10),
   digitChar (n / 10 % 10), digitChar (n % 10)]

/-- Fuel-driven decimal rendering; `fuel` bounds the recursion depth. -/
def natToDigitsAux (fuel : Nat) (n : Nat) : Str :=
  match fuel with
  | 0 => []
  | fuel + 1 =>
    if n < 10 then [digitChar n]
    else natToDigitsAux fuel (n / 10) ++ [digitChar (n % 10)]

/-- Python `str(n)` for a natural number `n`. -/
def natToStr (n : Nat) : Str := natToDigitsAux (n + 1) n

/-- Python `s.zfill(k)` for a digit string `s`: left-pad with `'0'` to length `k`. -/
def zfill (k : Nat) (s : Str) : Str := List.replicate (k - s.length) '0' ++ s

/-- Embedding of `os.path.join(a, b)` (POSIX, two arguments): an absolute `b`
replaces `a`; otherwise a separator is inserted unless `a` is empty or already
ends in one. -/
def ospath_join (a b : Str) : Str :=
  if b.head? = some '/' then b
  else if a = [] ∨ a.getLast? = some '/' then a ++ b
  else a ++ '/' :: b

/-- Split a path into its `'/'`-separated segments (Python `p.split('/')`). -/
def splitSegs (p : Str) : List Str :=
  match p with
  | [] => [[]]
  | c :: rest =>
    if c = '/' then [] :: splitSegs rest
    else
      match splitSegs rest with
      | [] => [[c]]
      | s :: ss => (c :: s) :: ss

/-- Rejoin segments with `'/'` separators. -/
def joinSegs : List Str → Str
  | [] => []
  | [s] => s
  | s :: s2 :: ss => s ++ '/' :: joinSegs (s2 :: ss)

/-- The `head` component of `os.path.split(p)`: the path with its last
segment removed. -/
def parentPath (p : Str) : Str := joinSegs (splitSegs p).dropLast

/-- The embedded Python exceptions raised by the script's steps. -/
inductive PyErr where
  | fileExistsError (p : Str)
  | permissionError (p : Str)
  | notADirectoryError (p : Str)
  | fileNotFoundError (p : Str)
  | connectionError (msg : Str)
  | backupExecutionError (msg : Str)
  | smtpError (msg : Str)
  | nameError
deriving DecidableEq

/-- Rendering of `str(e)`, the error text interpolated into log lines and
notification bodies. -/
def errText : PyErr → Str
  | .fileExistsError p => "FileExistsError: ".data ++ p
  | .permissionError p => "PermissionError: ".data ++ p
  | .notADirectoryError p => "NotADirectoryError: ".data ++ p
  | .fileNotFoundError p => "FileNotFoundError: ".data ++ p
  | .connectionError m => "ConnectionError: ".data ++ m
  | .backupExecutionError m => "BackupExecutionError: ".data ++ m
  | .smtpError m => "SMTPError: ".data ++ m
  | .nameError => "NameError".data

/-- The filesystem as observed by the script: which paths exist as
directories, which exist as non-directories, and where `mkdir` is denied. -/
structure FS where
  dirs : List Str
  files : List Str
  denied : List Str
deriving DecidableEq

/-- Embedding of `os.path.exists p`: true for directories and non-directories
alike (the script never checks `isdir`). -/
def fsExists (fs : FS) (p : Str) : Bool :=
  decide (p ∈ fs.dirs ∨ p ∈ fs.files)

/-- Embedding of `os.mkdir p`: fails if `p` already exists, if creation is
denied, or if the parent is missing or a non-directory. -/
def mkdir (fs : FS) (p : Str) : Except PyErr FS :=
  if fsExists fs p then .error (.fileExistsError p)
  else if p ∈ fs.denied then .error (.permissionError p)
  else if parentPath p = [] then .ok { fs with dirs := p :: fs.dirs }
  else if parentPath p ∈ fs.dirs then .ok { fs with dirs := p :: fs.dirs }
  else if parentPath p ∈ fs.files then .error (.notADirectoryError p)
  else .error (.fileNotFoundError p)

/-- Recursion core of `os.makedirs`: create the parent first when it is
missing, then `mkdir` the path itself.  `fuel` bounds the parent chain. -/
def makedirsAux (fuel : Nat) (fs : FS) (p : Str) : Except PyErr FS :=
  match fuel with
  | 0 => .error (.fileNotFoundError p)
  | fuel + 1 =>
    if parentPath p = [] ∨ fsExists fs (parentPath p) then mkdir fs p
    else
      match makedirsAux fuel fs (parentPath p) with
      | .error e => .error e
      | .ok fs1 => mkdir fs1 p

/-- Embedding of `os.makedirs p` (default `exist_ok=False`). -/
def makedirs (fs : FS) (p : Str) : Except PyErr FS :=
  makedirsAux (splitSegs p).length fs p

/-- A `datetime.date`: the fields of `datetime.date.today()`. -/
structure Date where
  year : Nat
  month : Nat
  day : Nat
deriving DecidableEq

/-- The field ranges `datetime.date` enforces. -/
def Date.validDate (d : Date) : Prop :=
  1 ≤ d.year ∧ d.year ≤ 9999 ∧ 1 ≤ d.month ∧ d.month ≤ 12 ∧ 1 ≤ d.day ∧ d.day ≤ 31

instance (d : Date) : Decidable d.validDate := by
  unfold Date.validDate; infer_instance

/-- A `datetime.datetime`: the fields of `datetime.datetime.now()`. -/
structure DateTime where
  year : Nat
  month : Nat
  day : Nat
  hour : Nat
  minute : Nat
  second : Nat
deriving DecidableEq

/-- The field ranges `datetime.datetime` enforces. -/
def DateTime.validTime (t : DateTime) : Prop :=
  1 ≤ t.year ∧ t.year ≤ 9999 ∧ 1 ≤ t.month ∧ t.month ≤ 12 ∧ 1 ≤ t.day ∧
    t.day ≤ 31 ∧ t.hour ≤ 23 ∧ t.minute ≤ 59 ∧ t.second ≤ 59

instance (t : DateTime) : Decidable t.validTime := by
  unfold DateTime.validTime; infer_instance

/-- Embedding of `datetime.datetime.now().strftime('%Y%m%d_%H%M%S')`. -/
def strftimeTS (t : DateTime) : Str :=
  pad4 t.year ++ (pad2 t.month ++ (pad2 t.day ++
    ('_' :: (pad2 t.hour ++ (pad2 t.minute ++ pad2 t.second)))))

/-- Embedding of `create_backup_directory(base_dir)` from the script, with the
clock read `datetime.date.today()` passed in as `today` and the filesystem
threaded explicitly.  For each of the year, month and day directories: if the
path does not `os.path.exists`, call `os.makedirs` on it; finally return the
day directory. -/
def create_backup_directory (fs : FS) (base_dir : Str) (today : Date) :
    Except PyErr (Str × FS) :=
  let year_dir := ospath_join base_dir (natToStr today.year)
  let month_dir := ospath_join year_dir (zfill 2 (natToStr today.month))
  let day_dir := ospath_join month_dir (zfill 2 (natToStr today.day))
  match (if fsExists fs year_dir then Except.ok fs else makedirs fs year_dir) with
  | .error e => .error e
  | .ok fs1 =>
    match (if fsExists fs1 month_dir then Except.ok fs1 else makedirs fs1 month_dir) with
    | .error e => .error e
    | .ok fs2 =>
      match (if fsExists fs2 day_dir then Except.ok fs2 else makedirs fs2 day_dir) with
      | .error e => .error e
      | .ok fs3 => Except.ok (day_dir, fs3)

/-- The hard-coded configuration block at the top of `perform_backup`. -/
def cfg_server : Str := "YOUR_SERVER".data

/-- Configuration: the database identifier. -/
def cfg_database : Str := "YOUR_DATABASE".data

/-- Configuration: the database user. -/
def cfg_username : Str := "YOUR_USERNAME".data

/-- Configuration: the database password. -/
def cfg_password : Str := "YOUR_PASSWORD".data

/-- Configuration: the base backup directory. -/
def cfg_backup_dir : Str := "/path/to/backup".data

/-- Configuration: the notification recipient. -/
def cfg_notify_email : Str := "recipient@example.com".data

/-- Configuration: the SMTP relay host. -/
def cfg_smtp_server : Str := "smtp.example.com".data

/-- Configuration: the SMTP relay port. -/
def cfg_smtp_port : Nat := 587

/-- Configuration: the SMTP user (also used as the From address). -/
def cfg_smtp_user : Str := "smtp_user".data

/-- Configuration: the SMTP password. -/
def cfg_smtp_password : Str := "smtp_password".data

/-- Outcomes of the three external effects for one scheduled run, together
with the two clock reads and the filesystem the run starts from.
`connectResult`, `backupResult` and `emailResult` carry the error message of
`pyodbc.connect`, of the `BACKUP DATABASE` execution and of the SMTP session
respectively when that effect fails. -/
structure Env where
  fs : FS
  today : Date
  now : DateTime
  connectResult : Except Str Unit
  backupResult : Except Str Unit
  emailResult : Except Str Unit

/-- Embedding of `connect_to_sql_server`: try `pyodbc.connect`; on failure the
exception is logged and re-raised unchanged.  The connection object itself
carries no data the rest of the run inspects, so it is modelled as `Unit`. -/
def connect_to_sql_server (env : Env) (server database username password : Str) :
    Except PyErr Unit :=
  match env.connectResult with
  | .ok _ => .ok ()
  | .error m => .error (.connectionError m)

/-- Embedding of `backup_database(connection, database_name, backup_dir)`:
build the timestamped filename from a fresh clock read, join it under
`backup_dir`, execute the `BACKUP DATABASE` command, and return the backup
path; on failure the exception is logged and re-raised unchanged.  The
connection is NOT closed here — the source has no `finally`. -/
def backup_database (env : Env) (database_name backup_dir : Str) :
    Except PyErr Str :=
  let timestamp := strftimeTS env.now
  let backup_filename := database_name ++ "_backup_".data ++ timestamp ++ ".bak".data
  let backup_path := ospath_join backup_dir backup_filename
  match env.backupResult with
  | .ok _ => .ok backup_path
  | .error m => .error (.backupExecutionError m)

/-- Embedding of `send_email_notification`: the whole body sits in a
`try/except Exception` whose handler only logs, so the function never raises;
it returns whether delivery succeeded.  The message-construction arguments are
kept for signature fidelity but only the transport outcome is observable. -/
def send_email_notification (env : Env) (subject body from_email to_email : Str)
    (smtp_server : Str) (smtp_port : Nat) (smtp_user smtp_password : Str) : Bool :=
  match env.emailResult with
  | .ok _ => true
  | .error _ => false

/-- The local variables of `perform_backup` that the `except` handler reads.
Python binds locals dynamically, so each is `Option`-valued: `none` means the
assignment has not executed yet and a read raises `NameError`. -/
structure Locals where
  database : Option Str := none
  notify_email : Option Str := none
  smtp_server : Option Str := none
  smtp_port : Option Nat := none
  smtp_user : Option Str := none
  smtp_password : Option Str := none
deriving DecidableEq

/-- The `Locals` state after the configuration block at the top of
`perform_backup`'s `try` body has executed. -/
def tryLocals : Locals :=
  { database := some cfg_database, notify_email := some cfg_notify_email,
    smtp_server := some cfg_smtp_server, smtp_port := some cfg_smtp_port,
    smtp_user := some cfg_smtp_user, smtp_password := some cfg_smtp_password }

/-- The observable effects of one `perform_backup` run: which steps ran, the
connection lifetime, and every notification attempt (subject, body) in order. -/
structure RunRecord where
  connectCalled : Bool := false
  connOpened : Bool := false
  backupCalled : Bool := false
  connClosed : Bool := false
  notifications : List (Str × Str) := []
deriving DecidableEq

/-- Success notification subject: `f"Backup Success: {database}"`. -/
def successSubject : Str := "Backup Success: ".data ++ cfg_database

/-- Success notification body, carrying the backup file path. -/
def successBody (backup_path : Str) : Str :=
  "Backup of database ".data ++ cfg_database ++
    " completed successfully. Backup file: ".data ++ backup_path

/-- Failure notification subject: `f"Backup Failed: {database}"`, built in the
`except` handler from the outer-scope local `database`. -/
def failSubject (database : Str) : Str := "Backup Failed: ".data ++ database

/-- Failure notification body, carrying `str(e)` for the caught exception. -/
def failBody (database : Str) (e : PyErr) : Str :=
  "An error occurred during the backup of database ".data ++ database ++
    ". Error: ".data ++ errText e

/-- The `try` body of `perform_backup`: bind the configuration locals, create
the dated backup directory, connect, back up, close the connection, and send
the success notification.  An exception at any step aborts the body, carrying
the `Locals` bound so far and the effects already performed. -/
def perform_backup_try (env : Env) :
    Except (PyErr × Locals × RunRecord) (Str × RunRecord) :=
  let l : Locals := tryLocals
  let r0 : RunRecord := {}
  match create_backup_directory env.fs cfg_backup_dir env.today with
  | .error e => .error (e, l, r0)
  | .ok (backup_dir, _) =>
    match connect_to_sql_server env cfg_server cfg_database cfg_username cfg_password with
    | .error e => .error (e, l, { r0 with connectCalled := true })
    | .ok _connection =>
      let r1 : RunRecord := { r0 with connectCalled := true, connOpened := true }
      match backup_database env cfg_database backup_dir with
      | .error e => .error (e, l, { r1 with backupCalled := true })
      | .ok backup_path =>
        let r2 : RunRecord := { r1 with backupCalled := true }
        let r3 : RunRecord := { r2 with connClosed := true }
        if cfg_notify_email ≠ [] then
          let subject := successSubject
          let body := successBody backup_path
          let _sent := send_email_notification env subject body cfg_smtp_user
            cfg_notify_email cfg_smtp_server cfg_smtp_port cfg_smtp_user cfg_smtp_password
          .ok (backup_path, { r3 with notifications := r3.notifications ++ [(subject, body)] })
        else
          .ok (backup_path, r3)

/-- Embedding of `perform_backup`: run the `try` body; the `except Exception`
handler logs the error and, when `notify_email` is truthy, builds the failure
subject/body from the outer-scope locals (raising `NameError` if one is
unbound) and attempts the failure notification.  A `.error` result means an
exception escaped `perform_backup` into the scheduler loop. -/
def perform_backup (env : Env) : Except PyErr RunRecord :=
  match perform_backup_try env with
  | .ok (_, r) => .ok r
  | .error (e, l, r) =>
    match l.notify_email with
    | none => .error PyErr.nameError
    | some notify_email =>
      if notify_email ≠ [] then
        match l.database, l.smtp_server, l.smtp_port, l.smtp_user, l.smtp_password with
        | some database, some smtp_server, some smtp_port, some smtp_user,
            some smtp_password =>
          let subject := failSubject database
          let body := failBody database e
          let _sent := send_email_notification env subject body smtp_user
            notify_email smtp_server smtp_port smtp_user smtp_password
          .ok { r with notifications := r.notifications ++ [(subject, body)] }
        | _, _, _, _, _ => .error PyErr.nameError
      else
        .ok r

example : natToStr 2024 = "2024".data := by decide
example : zfill 2 (natToStr 5) = "05".data := by decide
example : ospath_join "b".data "2024".data = "b/2024".data := by decide
example : parentPath "b/2024/05".data = "b/2024".data := by decide
example :
    create_backup_directory ⟨["b".data], [], []⟩ "b".data ⟨2024, 5, 7⟩ =
      Except.ok ("b/2024/05/07".data,
        ⟨["b/2024/05/07".data, "b/2024/05".data, "b/2024".data, "b".data], [], []⟩) := by
  decide

example :
    perform_backup
      { fs := ⟨["/path/to/backup".data], [], []⟩, today := ⟨2024, 5, 7⟩,
        now := ⟨2024, 5, 7, 8, 0, 15⟩, connectResult := .ok (), backupResult := .ok (),
        emailResult := .ok () } =
      Except.ok
        { connectCalled := true, connOpened := true, backupCalled := true,
          connClosed := true,
          notifications := [(successSubject,
            successBody "/path/to/backup/2024/05/07/YOUR_DATABASE_backup_20240507_080015.bak".data)] } := by
  decide

example :
    perform_backup
      { fs := ⟨["/path/to/backup".data], [], []⟩, today := ⟨2024, 5, 7⟩,
        now := ⟨2024, 5, 7, 8, 0, 15⟩, connectResult := .ok (),
        backupResult := .error "disk full".data, emailResult := .ok () } =
      Except.ok
        { connectCalled := true, connOpened := true, backupCalled := true,
          connClosed := false,
          notifications := [(failSubject cfg_database,
            failBody cfg_database (.backupExecutionError "disk full".data))] } := by
  decide

/-! ### Lemmas about decimal rendering -/

theorem digitChar_inj : ∀ a < 10, ∀ b < 10, digitChar a = digitChar b → a = b := by
  decide

theorem digitChar_ne_slash : ∀ a < 10, digitChar a ≠ '/' := by decide

theorem pad2_inj {a b : Nat} (ha : a < 100) (hb : b < 100) (h : pad2 a = pad2 b) :
    a = b := by
  simp only [pad2, List.cons.injEq, and_true] at h
  obtain ⟨h1, h2⟩ := h
  have e1 := digitChar_inj _ (by omega) _ (by omega) h1
  have e2 := digitChar_inj _ (by omega) _ (by omega) h2
  omega

theorem pad4_inj {a b : Nat} (ha : a < 10000) (hb : b < 10000) (h : pad4 a = pad4 b) :
    a = b := by
  simp only [pad4, List.cons.injEq, and_true] at h
  obtain ⟨h1, h2, h3, h4⟩ := h
  have e1 := digitChar_inj _ (by omega) _ (by omega) h1
  have e2 := digitChar_inj _ (by omega) _ (by omega) h2
  have e3 := digitChar_inj _ (by omega) _ (by omega) h3
  have e4 := digitChar_inj _ (by omega) _ (by omega) h4
  omega

theorem pad2_length (n : Nat) : (pad2 n).length = 2 := rfl

theorem pad4_length (n : Nat) : (pad4 n).length = 4 := rfl

theorem natToDigitsAux_congr :
    ∀ f1, ∀ n < f1, ∀ f2, n < f2 → natToDigitsAux f1 n = natToDigitsAux f2 n := by
  intro f1
  induction f1 with
  | zero => intro n hn; omega
  | succ f ih =>
    intro n hn f2 hf2
    cases f2 with
    | zero => omega
    | succ f2' =>
      simp only [natToDigitsAux]
      by_cases h10 : n < 10
      · simp [h10]
      · simp only [h10, if_false]
        rw [ih (n / 10) (by omega) f2' (by omega)]

theorem natToStr_lt10 {n : Nat} (h : n < 10) : natToStr n = [digitChar n] := by
  simp [natToStr, natToDigitsAux, h]

theorem natToStr_step {n : Nat} (h : 10 ≤ n) :
    natToStr n = natToStr (n / 10) ++ [digitChar (n % 10)] := by
  have h10 : ¬ n < 10 := by omega
  show natToDigitsAux (n + 1) n = natToDigitsAux (n / 10 + 1) (n / 10) ++ [digitChar (n % 10)]
  have e : natToDigitsAux (n + 1) n =
      if n < 10 then [digitChar n]
      else natToDigitsAux n (n / 10) ++ [digitChar (n % 10)] := rfl
  rw [e, if_neg h10, natToDigitsAux_congr n (n / 10) (by omega) (n / 10 + 1) (by omega)]

theorem natToStr_eq_pad4 {n : Nat} (h1 : 1000 ≤ n) (h2 : n ≤ 9999) :
    natToStr n = pad4 n := by
  have e1 : natToStr n = natToStr (n / 10) ++ [digitChar (n % 10)] :=
    natToStr_step (by omega)
  have e2 : natToStr (n / 10) = natToStr (n / 10 / 10) ++ [digitChar (n / 10 % 10)] :=
    natToStr_step (by omega)
  have e3 : natToStr (n / 10 / 10) =
      natToStr (n / 10 / 10 / 10) ++ [digitChar (n / 10 / 10 % 10)] :=
    natToStr_step (by omega)
  have e4 : natToStr (n / 10 / 10 / 10) = [digitChar (n / 10 / 10 / 10)] :=
    natToStr_lt10 (by omega)
  have a1 : n / 10 / 10 / 10 = n / 1000 % 10 := by omega
  have a2 : n / 10 / 10 % 10 = n / 100 % 10 := by omega
  rw [e1, e2, e3, e4, a1, a2]
  simp [pad4]

theorem zfill_natToStr_eq_pad2 : ∀ n < 100, zfill 2 (natToStr n) = pad2 n := by decide

theorem natToStr_length4 {n : Nat} (h1 : 1000 ≤ n) (h2 : n ≤ 9999) :
    (natToStr n).length = 4 := by
  rw [natToStr_eq_pad4 h1 h2, pad4_length]

theorem natToStr_ne_nil (n : Nat) : natToStr n ≠ [] := by
  by_cases h : n < 10
  · rw [natToStr_lt10 h]; simp
  · rw [natToStr_step (by omega)]; simp

theorem slash_not_mem_natToStr (n : Nat) : '/' ∉ natToStr n := by
  induction n using Nat.strong_induction_on with
  | _ n ih =>
    by_cases h : n < 10
    · rw [natToStr_lt10 h]
      simp only [List.mem_singleton]
      exact fun hc => digitChar_ne_slash n h hc.symm
    · rw [natToStr_step (by omega)]
      simp only [List.mem_append, List.mem_singleton]
      rintro (hc | hc)
      · exact ih (n / 10) (by omega) hc
      · exact digitChar_ne_slash (n % 10) (by omega) hc.symm

theorem slash_not_mem_zfill {k : Nat} {s : Str} (h : '/' ∉ s) : '/' ∉ zfill k s := by
  simp only [zfill, List.mem_append, List.mem_replicate]
  rintro (⟨-, hc⟩ | hc)
  · exact absurd hc (by decide)
  · exact h hc

theorem zfill_ne_nil {k : Nat} {s : Str} (h : s ≠ []) : zfill k s ≠ [] := by
  simp [zfill, h]

/-! ### Lemmas about paths -/

theorem head?_ne_slash {s : Str} (h : '/' ∉ s) : s.head? ≠ some '/' := by
  intro hc
  exact h (List.mem_of_mem_head? (by rw [hc]; exact rfl))

theorem getLast?_ne_slash {s : Str} (h : '/' ∉ s) : s.getLast? ≠ some '/' := by
  intro hc
  exact h (List.mem_of_mem_getLast? (by rw [hc]; exact rfl))

theorem ospath_join_normal {a b : Str} (hb : b.head? ≠ some '/') (ha : a ≠ [])
    (ha2 : a.getLast? ≠ some '/') : ospath_join a b = a ++ '/' :: b := by
  simp [ospath_join, hb, ha, ha2]

theorem getLast?_append_slash_cons {a b : Str} (hb : '/' ∉ b) (hbne : b ≠ []) :
    (a ++ '/' :: b).getLast? ≠ some '/' := by
  rw [List.getLast?_append_cons]
  cases b with
  | nil => exact absurd rfl hbne
  | cons c cs =>
    rw [List.getLast?_cons_cons]
    exact getLast?_ne_slash hb

theorem splitSegs_ne_nil (p : Str) : splitSegs p ≠ [] := by
  cases p with
  | nil => simp [splitSegs]
  | cons c rest =>
    simp only [splitSegs]
    by_cases h : c = '/'
    · simp [h]
    · simp only [h, if_false]
      cases hs : splitSegs rest <;> simp

theorem splitSegs_append_slash (a b : Str) :
    splitSegs (a ++ '/' :: b) = splitSegs a ++ splitSegs b := by
  induction a with
  | nil => simp [splitSegs]
  | cons c rest ih =>
    by_cases h : c = '/'
    · simp [splitSegs, h, ih]
    · simp only [List.cons_append, splitSegs, h, if_false, List.append_eq]
      cases hs : splitSegs rest with
      | nil => exact absurd hs (splitSegs_ne_nil rest)
      | cons s ss =>
        rw [ih, hs]
        simp

theorem splitSegs_no_slash {b : Str} (h : '/' ∉ b) : splitSegs b = [b] := by
  induction b with
  | nil => simp [splitSegs]
  | cons c rest ih =>
    have hc : c ≠ '/' := fun hc => h (hc ▸ List.mem_cons_self c rest)
    have hr : '/' ∉ rest := fun hm => h (List.mem_cons_of_mem _ hm)
    simp [splitSegs, hc, ih hr]

theorem joinSegs_splitSegs (p : Str) : joinSegs (splitSegs p) = p := by
  induction p with
  | nil => simp [splitSegs, joinSegs]
  | cons c rest ih =>
    by_cases h : c = '/'
    · subst h
      simp only [splitSegs, if_pos rfl]
      cases hs : splitSegs rest with
      | nil => exact absurd hs (splitSegs_ne_nil rest)
      | cons s ss =>
        rw [hs] at ih
        show [] ++ '/' :: joinSegs (s :: ss) = '/' :: rest
        rw [List.nil_append, ih]
    · simp only [splitSegs, h, if_false]
      cases hs : splitSegs rest with
      | nil => exact absurd hs (splitSegs_ne_nil rest)
      | cons s ss =>
        rw [hs] at ih
        cases ss with
        | nil =>
          show c :: s = c :: rest
          rw [show joinSegs [s] = s from rfl] at ih
          rw [ih]
        | cons s2 ss2 =>
          show (c :: s) ++ '/' :: joinSegs (s2 :: ss2) = c :: rest
          rw [List.cons_append, ← joinSegs, ih]

theorem parentPath_join {a b : Str} (hb : '/' ∉ b) :
    parentPath (a ++ '/' :: b) = a := by
  rw [parentPath, splitSegs_append_slash, splitSegs_no_slash hb, List.dropLast_concat,
    joinSegs_splitSegs]

/-! ### Lemmas about the filesystem model -/

theorem mkdir_ok {fs fs' : FS} {p : Str} (h : mkdir fs p = .ok fs') :
    fs' = { fs with dirs := p :: fs.dirs } := by
  simp only [mkdir] at h
  split_ifs at h <;> simp_all

theorem makedirsAux_ok :
    ∀ fuel (fs : FS) (p : Str) (fs' : FS), makedirsAux fuel fs p = .ok fs' →
      fs'.files = fs.files ∧ fs'.denied = fs.denied ∧
        (∀ q, q ∈ fs.dirs → q ∈ fs'.dirs) ∧ p ∈ fs'.dirs := by
  intro fuel
  induction fuel with
  | zero => intro fs p fs' h; simp [makedirsAux] at h
  | succ f ih =>
    intro fs p fs' h
    simp only [makedirsAux] at h
    split at h
    · have he := mkdir_ok h
      subst he
      exact ⟨rfl, rfl, fun q hq => List.mem_cons_of_mem _ hq, List.mem_cons_self _ _⟩
    · cases hrec : makedirsAux f fs (parentPath p) with
      | error e => rw [hrec] at h; simp at h
      | ok fs1 =>
        rw [hrec] at h
        have h' : mkdir fs1 p = .ok fs' := h
        have h1 := ih fs (parentPath p) fs1 hrec
        have he := mkdir_ok h'
        subst he
        exact ⟨h1.1, h1.2.1, fun q hq => List.mem_cons_of_mem _ (h1.2.2.1 q hq),
          List.mem_cons_self _ _⟩

theorem makedirs_ok {fs fs' : FS} {p : Str} (h : makedirs fs p = .ok fs') :
    fs'.files = fs.files ∧ fs'.denied = fs.denied ∧
      (∀ q, q ∈ fs.dirs → q ∈ fs'.dirs) ∧ p ∈ fs'.dirs :=
  makedirsAux_ok _ fs p fs' h

theorem fsExists_mono {fs fs' : FS} (hd : ∀ q, q ∈ fs.dirs → q ∈ fs'.dirs)
    (hf : fs'.files = fs.files) {p : Str} (h : fsExists fs p = true) :
    fsExists fs' p = true := by
  simp only [fsExists, decide_eq_true_eq] at h ⊢
  rcases h with h | h
  · exact Or.inl (hd p h)
  · rw [hf]; exact Or.inr h

theorem step_ok {fs fs1 : FS} {q : Str}
    (h : (if fsExists fs q then Except.ok fs else makedirs fs q) = .ok fs1) :
    fs1.files = fs.files ∧ (∀ r, r ∈ fs.dirs → r ∈ fs1.dirs) ∧ fsExists fs1 q = true := by
  split at h
  · cases h
    exact ⟨rfl, fun r hr => hr, by assumption⟩
  · have hm := makedirs_ok h
    refine ⟨hm.1, hm.2.2.1, ?_⟩
    simp only [fsExists, decide_eq_true_eq]
    exact Or.inl hm.2.2.2

theorem cbd_ok_inv {fs fs' : FS} {base : Str} {d : Date} {p : Str}
    (h : create_backup_directory fs base d = .ok (p, fs')) :
    p = ospath_join (ospath_join (ospath_join base (natToStr d.year))
          (zfill 2 (natToStr d.month))) (zfill 2 (natToStr d.day)) ∧
    fsExists fs' (ospath_join base (natToStr d.year)) = true ∧
    fsExists fs' (ospath_join (ospath_join base (natToStr d.year))
      (zfill 2 (natToStr d.month))) = true ∧
    fsExists fs' (ospath_join (ospath_join (ospath_join base (natToStr d.year))
      (zfill 2 (natToStr d.month))) (zfill 2 (natToStr d.day))) = true := by
  simp only [create_backup_directory] at h
  split at h
  · simp at h
  · rename_i fsA h1
    have s1 := step_ok h1
    split at h
    · simp at h
    · rename_i fsB h2
      have s2 := step_ok h2
      split at h
      · simp at h
      · rename_i fsC h3
        have s3 := step_ok h3
        have h' : ospath_join (ospath_join (ospath_join base (natToStr d.year))
            (zfill 2 (natToStr d.month))) (zfill 2 (natToStr d.day)) = p ∧ fsC = fs' := by
          simpa using h
        obtain ⟨hp, hfs⟩ := h'
        subst hp
        subst hfs
        refine ⟨rfl, ?_, ?_, s3.2.2⟩
        · exact fsExists_mono s3.2.1 s3.1 (fsExists_mono s2.2.1 s2.1 s1.2.2)
        · exact fsExists_mono s3.2.1 s3.1 s2.2.2

theorem cbd_idem {fs fs' : FS} {base : Str} {d : Date} {p : Str}
    (h : create_backup_directory fs base d = .ok (p, fs')) :
    create_backup_directory fs' base d = .ok (p, fs') := by
  obtain ⟨hp, hY, hM, hD⟩ := cbd_ok_inv h
  subst hp
  simp only [create_backup_directory, hY, hM, hD, if_true]

theorem cbd_path_formula {base : Str} (d : Date) (h1 : base ≠ [])
    (h2 : base.getLast? ≠ some '/') :
    ospath_join (ospath_join (ospath_join base (natToStr d.year))
        (zfill 2 (natToStr d.month))) (zfill 2 (natToStr d.day)) =
      base ++ '/' :: natToStr d.year ++ '/' :: zfill 2 (natToStr d.month) ++
        '/' :: zfill 2 (natToStr d.day) := by
  have hys := slash_not_mem_natToStr d.year
  have hms : '/' ∉ zfill 2 (natToStr d.month) :=
    slash_not_mem_zfill (slash_not_mem_natToStr d.month)
  have hds : '/' ∉ zfill 2 (natToStr d.day) :=
    slash_not_mem_zfill (slash_not_mem_natToStr d.day)
  have hysne := natToStr_ne_nil d.year
  have hmsne : zfill 2 (natToStr d.month) ≠ [] :=
    zfill_ne_nil (natToStr_ne_nil d.month)
  rw [ospath_join_normal (head?_ne_slash hys) h1 h2]
  rw [ospath_join_normal (head?_ne_slash hms) (by simp)
    (getLast?_append_slash_cons hys hysne)]
  rw [ospath_join_normal (head?_ne_slash hds) (by simp)
    (getLast?_append_slash_cons hms hmsne)]

/-! ### Characterization of one perform_backup run -/

theorem pbt_dir_fail {env : Env} {e : PyErr}
    (h : create_backup_directory env.fs cfg_backup_dir env.today = .error e) :
    perform_backup_try env = .error (e, tryLocals, {}) := by
  simp only [perform_backup_try, h]

theorem pbt_conn_fail {env : Env} {bdir : Str} {fs1 : FS} {m : Str}
    (hd : create_backup_directory env.fs cfg_backup_dir env.today = .ok (bdir, fs1))
    (hc : env.connectResult = .error m) :
    perform_backup_try env = .error (.connectionError m, tryLocals,
      { connectCalled := true }) := by
  simp only [perform_backup_try, hd, connect_to_sql_server, hc]

theorem pbt_backup_fail {env : Env} {bdir : Str} {fs1 : FS} {m : Str}
    (hd : create_backup_directory env.fs cfg_backup_dir env.today = .ok (bdir, fs1))
    (hc : env.connectResult = .ok ()) (hb : env.backupResult = .error m) :
    perform_backup_try env = .error (.backupExecutionError m, tryLocals,
      { connectCalled := true, connOpened := true, backupCalled := true }) := by
  simp only [perform_backup_try, hd, connect_to_sql_server, hc, backup_database, hb]

theorem pbt_success {env : Env} {bdir : Str} {fs1 : FS}
    (hd : create_backup_directory env.fs cfg_backup_dir env.today = .ok (bdir, fs1))
    (hc : env.connectResult = .ok ()) (hb : env.backupResult = .ok ()) :
    perform_backup_try env = .ok
      (ospath_join bdir (cfg_database ++ "_backup_".data ++ strftimeTS env.now ++ ".bak".data),
       { connectCalled := true, connOpened := true, backupCalled := true, connClosed := true,
         notifications := [(successSubject, successBody (ospath_join bdir
           (cfg_database ++ "_backup_".data ++ strftimeTS env.now ++ ".bak".data)))] }) := by
  simp only [perform_backup_try, hd, connect_to_sql_server, hc, backup_database, hb]
  rw [if_pos (show cfg_notify_email ≠ [] by decide)]
  simp

theorem pbt_cases (env : Env) :
    (∃ p : Str, perform_backup_try env = .ok (p,
      { connectCalled := true, connOpened := true, backupCalled := true, connClosed := true,
        notifications := [(successSubject, successBody p)] })) ∨
    (∃ e : PyErr, perform_backup_try env = .error (e, tryLocals, {})) ∨
    (∃ e : PyErr, perform_backup_try env = .error (e, tryLocals, { connectCalled := true })) ∨
    (∃ e : PyErr, perform_backup_try env = .error (e, tryLocals,
      { connectCalled := true, connOpened := true, backupCalled := true })) := by
  cases hd : create_backup_directory env.fs cfg_backup_dir env.today with
  | error e => exact Or.inr (Or.inl ⟨e, pbt_dir_fail hd⟩)
  | ok v =>
    obtain ⟨bdir, fs1⟩ := v
    cases hc : env.connectResult with
    | error m =>
      exact Or.inr (Or.inr (Or.inl ⟨.connectionError m, pbt_conn_fail hd hc⟩))
    | ok u =>
      cases u
      cases hb : env.backupResult with
      | error m =>
        exact Or.inr (Or.inr (Or.inr ⟨.backupExecutionError m, pbt_backup_fail hd hc hb⟩))
      | ok u2 =>
        cases u2
        exact Or.inl ⟨_, pbt_success hd hc hb⟩

theorem pb_of_try_ok {env : Env} {p : Str} {r : RunRecord}
    (h : perform_backup_try env = .ok (p, r)) : perform_backup env = .ok r := by
  simp only [perform_backup, h]

theorem pb_of_try_err {env : Env} {e : PyErr} {r : RunRecord}
    (h : perform_backup_try env = .error (e, tryLocals, r)) :
    perform_backup env = .ok { r with notifications :=
      r.notifications ++ [(failSubject cfg_database, failBody cfg_database e)] } := by
  simp only [perform_backup, h, tryLocals]
  rw [if_pos (show cfg_notify_email ≠ [] by decide)]

/-! ### Injectivity of the timestamped filename -/

theorem strftimeTS_inj {t1 t2 : DateTime} (h1 : t1.validTime) (h2 : t2.validTime)
    (h : strftimeTS t1 = strftimeTS t2) : t1 = t2 := by
  simp only [strftimeTS] at h
  obtain ⟨hy, h⟩ := List.append_inj h rfl
  obtain ⟨hmo, h⟩ := List.append_inj h rfl
  obtain ⟨hd, h⟩ := List.append_inj h rfl
  rw [List.cons.injEq] at h
  obtain ⟨-, h⟩ := h
  obtain ⟨hh, h⟩ := List.append_inj h rfl
  obtain ⟨hmi, hs⟩ := List.append_inj h rfl
  obtain ⟨c1, c2, c3, c4, c5, c6, c7, c8, c9⟩ := h1
  obtain ⟨e1, e2, e3, e4, e5, e6, e7, e8, e9⟩ := h2
  have ey := pad4_inj (by omega) (by omega) hy
  have emo := pad2_inj (by omega) (by omega) hmo
  have ed := pad2_inj (by omega) (by omega) hd
  have eh := pad2_inj (by omega) (by omega) hh
  have emi := pad2_inj (by omega) (by omega) hmi
  have es := pad2_inj (by omega) (by omega) hs
  cases t1
  cases t2
  simp_all

theorem head?_append_left {l1 l2 : List Char} (h : l1 ≠ []) :
    (l1 ++ l2).head? = l1.head? := by
  cases l1 with
  | nil => exact absurd rfl h
  | cons c cs => rfl

theorem ospath_join_right_inj {a x y : Str} (hx : x.head? = y.head?)
    (h : ospath_join a x = ospath_join a y) : x = y := by
  simp only [ospath_join] at h
  by_cases hxs : x.head? = some '/'
  · have hys : y.head? = some '/' := by rw [← hx]; exact hxs
    rw [if_pos hxs, if_pos hys] at h
    exact h
  · have hys : ¬ y.head? = some '/' := by rw [← hx]; exact hxs
    rw [if_neg hxs, if_neg hys] at h
    by_cases ha : a = [] ∨ a.getLast? = some '/'
    · rw [if_pos ha, if_pos ha] at h
      exact List.append_cancel_left h
    · rw [if_neg ha, if_neg ha] at h
      have h2 := List.append_cancel_left h
      rw [List.cons.injEq] at h2
      exact h2.2

theorem backup_filename_inj {db : Str} {t1 t2 : DateTime}
    (h1 : t1.validTime) (h2 : t2.validTime)
    (h : db ++ "_backup_".data ++ strftimeTS t1 ++ ".bak".data =
         db ++ "_backup_".data ++ strftimeTS t2 ++ ".bak".data) : t1 = t2 := by
  have hb := List.append_cancel_right h
  have hc := List.append_cancel_left hb
  exact strftimeTS_inj h1 h2 hc

/-! ### Shared run-level helper lemmas -/

theorem pb_err_notifications {env : Env} {e : PyErr} {r0 : RunRecord}
    (hpbt : perform_backup_try env = .error (e, tryLocals, r0))
    (h0 : r0.notifications = []) :
    ∃ r : RunRecord, perform_backup env = .ok r ∧
      r.notifications = [(failSubject cfg_database, failBody cfg_database e)] := by
  refine ⟨_, pb_of_try_err hpbt, ?_⟩
  simp [h0]

theorem pbt_err_inv {env : Env} {e : PyErr} {l : Locals} {r0 : RunRecord}
    (h : perform_backup_try env = .error (e, l, r0)) :
    l = tryLocals ∧ r0.notifications = [] := by
  rcases pbt_cases env with ⟨p, hp⟩ | ⟨e', hp⟩ | ⟨e', hp⟩ | ⟨e', hp⟩ <;> rw [hp] at h
  · simp at h
  all_goals
    obtain ⟨-, h2, h3⟩ : e' = e ∧ tryLocals = l ∧ _ = r0 := by simpa using h
  all_goals subst h2
  all_goals subst h3
  all_goals exact ⟨rfl, rfl⟩

theorem errText_infix_failBody (e : PyErr) :
    errText e <:+: failBody cfg_database e :=
  ⟨"An error occurred during the backup of database ".data ++ cfg_database ++
    ". Error: ".data, [], by simp [failBody]⟩

theorem path_infix_successBody (p : Str) : p <:+: successBody p :=
  ⟨"Backup of database ".data ++ cfg_database ++
    " completed successfully. Backup file: ".data, [], by simp [successBody]⟩

/-! ### Claim theorems -/

/-- C1: every scheduled run of `perform_backup`, whatever its outcome, attempts
exactly one notification, and the notification matches the outcome: on success
the subject is `Backup Success: {databaseId}` and the body carries the full
artifact path; on failure the subject is `Backup Failed: {databaseId}` and the
body carries the captured error text.  No run ends with zero or two attempts. -/
theorem backup_run_one_notification (env : Env) :
    ∃ r : RunRecord, perform_backup env = .ok r ∧ r.notifications.length = 1 ∧
      ((∃ p r0, perform_backup_try env = .ok (p, r0) ∧
          r.notifications = [(successSubject, successBody p)] ∧
          p <:+: successBody p) ∨
       (∃ e l r0, perform_backup_try env = .error (e, l, r0) ∧
          r.notifications = [(failSubject cfg_database, failBody cfg_database e)] ∧
          errText e <:+: failBody cfg_database e)) := by
  rcases pbt_cases env with ⟨p, hp⟩ | ⟨e, hp⟩ | ⟨e, hp⟩ | ⟨e, hp⟩
  · exact ⟨_, pb_of_try_ok hp, rfl,
      Or.inl ⟨p, _, hp, rfl, path_infix_successBody p⟩⟩
  all_goals
    obtain ⟨r, hr, hn⟩ := pb_err_notifications hp rfl
  all_goals
    exact ⟨r, hr, by rw [hn]; rfl,
      Or.inr ⟨e, tryLocals, _, hp, hn, errText_infix_failBody e⟩⟩

/-- C3: no error of any category escapes `perform_backup` — for every
combination of step outcomes the job returns normally (the scheduler loop
survives), and a transport failure inside `send_email_notification` is
swallowed there: the function returns `false` instead of raising. -/
theorem no_error_escapes_scheduler (env : Env) :
    (∃ r : RunRecord, perform_backup env = .ok r) ∧
    (∀ (m s b fe te ss : Str) (sp : Nat) (su spw : Str),
       env.emailResult = .error m →
       send_email_notification env s b fe te ss sp su spw = false) := by
  constructor
  · rcases pbt_cases env with ⟨p, hp⟩ | ⟨e, hp⟩ | ⟨e, hp⟩ | ⟨e, hp⟩
    · exact ⟨_, pb_of_try_ok hp⟩
    all_goals exact ⟨_, pb_of_try_err hp⟩
  · intro m s b fe te ss sp su spw hm
    simp [send_email_notification, hm]

/-- C6: when directory preparation fails, neither `connect_to_sql_server` nor
`backup_database` runs; the run goes straight to the failure notification
carrying the partitioning error. -/
theorem dir_failure_skips_connect_and_backup (env : Env) (e : PyErr)
    (h : create_backup_directory env.fs cfg_backup_dir env.today = .error e) :
    ∃ r : RunRecord, perform_backup env = .ok r ∧ r.connectCalled = false ∧
      r.backupCalled = false ∧
      r.notifications = [(failSubject cfg_database, failBody cfg_database e)] := by
  have hpbt := pbt_dir_fail h
  refine ⟨_, pb_of_try_err hpbt, rfl, rfl, by simp⟩

/-- C9: every configuration variable the failure handler reads is bound before
the first fallible step, so whenever the `try` body aborts with any exception,
the handler's locals are all bound and the failure notification is constructed
and attempted — no `NameError` path exists. -/
theorem failure_handler_locals_bound (env : Env) (e : PyErr) (l : Locals)
    (r0 : RunRecord) (h : perform_backup_try env = .error (e, l, r0)) :
    l.database = some cfg_database ∧ l.notify_email = some cfg_notify_email ∧
      l.smtp_server = some cfg_smtp_server ∧ l.smtp_port = some cfg_smtp_port ∧
      l.smtp_user = some cfg_smtp_user ∧ l.smtp_password = some cfg_smtp_password ∧
      ∃ r : RunRecord, perform_backup env = .ok r ∧
        r.notifications = [(failSubject cfg_database, failBody cfg_database e)] := by
  obtain ⟨hl, h0⟩ := pbt_err_inv h
  subst hl
  refine ⟨rfl, rfl, rfl, rfl, rfl, rfl, ?_⟩
  exact pb_err_notifications h h0

/-- A filesystem in which the whole dated directory chain for 2024-05-07
already exists under the configured base directory. -/
def fsAllDirs : FS :=
  ⟨["/path/to/backup".data, "/path/to/backup/2024".data,
    "/path/to/backup/2024/05".data, "/path/to/backup/2024/05/07".data], [], []⟩

/-- A run in which the connection opens and the `BACKUP DATABASE` command
fails. -/
def envBackupFail : Env :=
  { fs := fsAllDirs, today := ⟨2024, 5, 7⟩, now := ⟨2024, 5, 7, 8, 0, 15⟩,
    connectResult := .ok (), backupResult := .error "disk full".data,
    emailResult := .ok () }

/-- C2: the source violates the connection-release contract.  When
`backup_database` raises, control jumps to `perform_backup`'s `except` handler
and `connection.close()` on line 143 is skipped — there is no `try/finally` —
so the opened connection is never closed on the error path.  This concrete run
opens the connection, fails the backup, and terminates with
`connClosed = false`. -/
theorem connection_leaked_on_backup_failure :
    ∃ r : RunRecord, perform_backup envBackupFail = .ok r ∧
      r.connOpened = true ∧ r.backupCalled = true ∧ r.connClosed = false := by
  refine ⟨⟨true, true, true, false,
    [(failSubject cfg_database,
      failBody cfg_database (.backupExecutionError "disk full".data))]⟩,
    by decide, rfl, rfl, rfl⟩

/-- C4: for every base directory and calendar date, a successful
`create_backup_directory` returns `base/YYYY/MM/DD` with month and day
zero-padded to two digits (and a four-digit year), and the call is idempotent:
repeating it on the resulting filesystem returns the same path and the same
filesystem without error. -/
theorem create_backup_directory_format_idempotent
    (fs : FS) (base : Str) (d : Date) (hv : d.validDate) (hy4 : 1000 ≤ d.year)
    (hb1 : base ≠ []) (hb2 : base.getLast? ≠ some '/') (p : Str) (fs1 : FS)
    (h : create_backup_directory fs base d = .ok (p, fs1)) :
    p = base ++ '/' :: natToStr d.year ++ '/' :: zfill 2 (natToStr d.month) ++
        '/' :: zfill 2 (natToStr d.day) ∧
    (natToStr d.year).length = 4 ∧ (zfill 2 (natToStr d.month)).length = 2 ∧
    (zfill 2 (natToStr d.day)).length = 2 ∧
    create_backup_directory fs1 base d = .ok (p, fs1) := by
  obtain ⟨hp, -, -, -⟩ := cbd_ok_inv h
  obtain ⟨v1, v2, v3, v4, v5, v6⟩ := hv
  refine ⟨?_, ?_, ?_, ?_, cbd_idem h⟩
  · rw [hp]; exact cbd_path_formula d hb1 hb2
  · exact natToStr_length4 hy4 (by omega)
  · rw [zfill_natToStr_eq_pad2 d.month (by omega)]; rfl
  · rw [zfill_natToStr_eq_pad2 d.day (by omega)]; rfl

/-- Witness for C4 at a concrete filesystem, base directory and date. -/
theorem create_backup_directory_format_idempotent_witness :
    "b/2024/05/07".data = "b".data ++ '/' :: natToStr 2024 ++
        '/' :: zfill 2 (natToStr 5) ++ '/' :: zfill 2 (natToStr 7) ∧
    (natToStr 2024).length = 4 ∧ (zfill 2 (natToStr 5)).length = 2 ∧
    (zfill 2 (natToStr 7)).length = 2 ∧
    create_backup_directory
        ⟨["b/2024/05/07".data, "b/2024/05".data, "b/2024".data, "b".data], [], []⟩
        "b".data ⟨2024, 5, 7⟩ =
      .ok ("b/2024/05/07".data,
        ⟨["b/2024/05/07".data, "b/2024/05".data, "b/2024".data, "b".data], [], []⟩) :=
  create_backup_directory_format_idempotent ⟨["b".data], [], []⟩ "b".data
    ⟨2024, 5, 7⟩ (by decide) (by decide) (by decide) (by decide)
    "b/2024/05/07".data
    ⟨["b/2024/05/07".data, "b/2024/05".data, "b/2024".data, "b".data], [], []⟩
    (by decide)

/-! ### C5: existence check versus directory check -/

theorem makedirsAux_succ (k : Nat) (fs : FS) (p : Str) :
    makedirsAux (k + 1) fs p =
      if parentPath p = [] ∨ fsExists fs (parentPath p) then mkdir fs p
      else
        match makedirsAux k fs (parentPath p) with
        | .error e => .error e
        | .ok fs1 => mkdir fs1 p := rfl

theorem makedirs_err_of_parent_exists {fs : FS} {p : Str} {e : PyErr}
    (hpar : fsExists fs (parentPath p) = true)
    (hmk : mkdir fs p = .error e) : makedirs fs p = .error e := by
  show makedirsAux (splitSegs p).length fs p = .error e
  cases hsp : splitSegs p with
  | nil => exact absurd hsp (splitSegs_ne_nil p)
  | cons s ss =>
    rw [List.length_cons, makedirsAux_succ, if_pos (Or.inr hpar), hmk]

theorem cbd_step1_error {fs : FS} {base : Str} {d : Date} {e : PyErr}
    (h1 : fsExists fs (ospath_join base (natToStr d.year)) = false)
    (h3 : makedirs fs (ospath_join base (natToStr d.year)) = .error e) :
    create_backup_directory fs base d = .error e := by
  simp [create_backup_directory, h1, h3]

theorem cbd_step2_error {fs : FS} {base : Str} {d : Date} {e : PyErr}
    (h1 : fsExists fs (ospath_join base (natToStr d.year)) = true)
    (h2 : fsExists fs (ospath_join (ospath_join base (natToStr d.year))
      (zfill 2 (natToStr d.month))) = false)
    (h3 : makedirs fs (ospath_join (ospath_join base (natToStr d.year))
      (zfill 2 (natToStr d.month))) = .error e) :
    create_backup_directory fs base d = .error e := by
  simp [create_backup_directory, h1, h2, h3]

theorem cbd_step3_error {fs : FS} {base : Str} {d : Date} {e : PyErr}
    (h1 : fsExists fs (ospath_join base (natToStr d.year)) = true)
    (h2 : fsExists fs (ospath_join (ospath_join base (natToStr d.year))
      (zfill 2 (natToStr d.month))) = true)
    (h3 : fsExists fs (ospath_join (ospath_join (ospath_join base (natToStr d.year))
      (zfill 2 (natToStr d.month))) (zfill 2 (natToStr d.day))) = false)
    (h4 : makedirs fs (ospath_join (ospath_join (ospath_join base (natToStr d.year))
      (zfill 2 (natToStr d.month))) (zfill 2 (natToStr d.day))) = .error e) :
    create_backup_directory fs base d = .error e := by
  simp [create_backup_directory, h1, h2, h3, h4]

theorem mkdir_denied {fs : FS} {p : Str} (hne : fsExists fs p = false)
    (hden : p ∈ fs.denied) : mkdir fs p = .error (.permissionError p) := by
  simp [mkdir, hne, hden]

theorem mkdir_err_parent_file {fs : FS} {p : Str}
    (hne : fsExists fs p = false) (hpne : parentPath p ≠ [])
    (hpd : parentPath p ∉ fs.dirs) (hpf : parentPath p ∈ fs.files) :
    ∃ e, mkdir fs p = .error e := by
  by_cases hden : p ∈ fs.denied
  · exact ⟨.permissionError p, mkdir_denied hne hden⟩
  · refine ⟨.notADirectoryError p, ?_⟩
    simp [mkdir, hne, hden, hpne, hpd, hpf]

theorem cbd_dir_shape {base : Str} (d : Date) (hb1 : base ≠ [])
    (hb2 : base.getLast? ≠ some '/') :
    ospath_join base (natToStr d.year) ≠ [] ∧
    parentPath (ospath_join base (natToStr d.year)) = base ∧
    ospath_join (ospath_join base (natToStr d.year))
      (zfill 2 (natToStr d.month)) ≠ [] ∧
    parentPath (ospath_join (ospath_join base (natToStr d.year))
      (zfill 2 (natToStr d.month))) = ospath_join base (natToStr d.year) ∧
    parentPath (ospath_join (ospath_join (ospath_join base (natToStr d.year))
      (zfill 2 (natToStr d.month))) (zfill 2 (natToStr d.day))) =
      ospath_join (ospath_join base (natToStr d.year)) (zfill 2 (natToStr d.month)) := by
  have hys := slash_not_mem_natToStr d.year
  have hysne := natToStr_ne_nil d.year
  have hms : '/' ∉ zfill 2 (natToStr d.month) :=
    slash_not_mem_zfill (slash_not_mem_natToStr d.month)
  have hmsne : zfill 2 (natToStr d.month) ≠ [] :=
    zfill_ne_nil (natToStr_ne_nil d.month)
  have hds : '/' ∉ zfill 2 (natToStr d.day) :=
    slash_not_mem_zfill (slash_not_mem_natToStr d.day)
  have hYeq : ospath_join base (natToStr d.year) = base ++ '/' :: natToStr d.year :=
    ospath_join_normal (head?_ne_slash hys) hb1 hb2
  have hYnn : ospath_join base (natToStr d.year) ≠ [] := by rw [hYeq]; simp
  have hYl : (ospath_join base (natToStr d.year)).getLast? ≠ some '/' := by
    rw [hYeq]; exact getLast?_append_slash_cons hys hysne
  have hMeq : ospath_join (ospath_join base (natToStr d.year))
      (zfill 2 (natToStr d.month)) =
      ospath_join base (natToStr d.year) ++ '/' :: zfill 2 (natToStr d.month) :=
    ospath_join_normal (head?_ne_slash hms) hYnn hYl
  have hMnn : ospath_join (ospath_join base (natToStr d.year))
      (zfill 2 (natToStr d.month)) ≠ [] := by rw [hMeq]; simp
  have hMl : (ospath_join (ospath_join base (natToStr d.year))
      (zfill 2 (natToStr d.month))).getLast? ≠ some '/' := by
    rw [hMeq]; exact getLast?_append_slash_cons hms hmsne
  have hDeq : ospath_join (ospath_join (ospath_join base (natToStr d.year))
      (zfill 2 (natToStr d.month))) (zfill 2 (natToStr d.day)) =
      ospath_join (ospath_join base (natToStr d.year))
        (zfill 2 (natToStr d.month)) ++ '/' :: zfill 2 (natToStr d.day) :=
    ospath_join_normal (head?_ne_slash hds) hMnn hMl
  refine ⟨hYnn, ?_, hMnn, ?_, ?_⟩
  · rw [hYeq]; exact parentPath_join hys
  · rw [hMeq]; exact parentPath_join hms
  · rw [hDeq]; exact parentPath_join hds

/-- A filesystem in which `b/2024/05/07` exists as a plain file while its
parents are directories. -/
def c5fs : FS :=
  ⟨["b".data, "b/2024".data, "b/2024/05".data], ["b/2024/05/07".data], []⟩

/-- C5 counterexample: the day segment exists as a non-directory, yet
`create_backup_directory` succeeds and returns it unchanged, because the
script tests `os.path.exists` and never `os.path.isdir`.  The claim that the
function fails whenever one of the year/month/day segments exists as a
non-directory is therefore false. -/
theorem day_segment_file_undetected :
    "b/2024/05/07".data ∈ c5fs.files ∧
      create_backup_directory c5fs "b".data ⟨2024, 5, 7⟩ =
        Except.ok ("b/2024/05/07".data, c5fs) :=
  ⟨by decide, by decide⟩

/-- C5 (amended): `create_backup_directory` fails with a filesystem error when
the year or month segment exists as a non-directory while its child segment is
missing, or when creation of any missing segment (year, month or day) is
denied by the filesystem; such an error aborts the run without retry and
triggers the failure-notification path.  (If the final day segment exists as a
non-directory the call instead succeeds, as the counterexample shows: only
creation of a *missing* child detects a non-directory parent.) -/
theorem create_backup_directory_error_conditions :
    (∀ (fs : FS) (base : Str) (d : Date), base ≠ [] → base.getLast? ≠ some '/' →
       ospath_join base (natToStr d.year) ∈ fs.files →
       ospath_join base (natToStr d.year) ∉ fs.dirs →
       fsExists fs (ospath_join (ospath_join base (natToStr d.year))
         (zfill 2 (natToStr d.month))) = false →
       ∃ e, create_backup_directory fs base d = .error e) ∧
    (∀ (fs : FS) (base : Str) (d : Date), base ≠ [] → base.getLast? ≠ some '/' →
       fsExists fs (ospath_join base (natToStr d.year)) = true →
       ospath_join (ospath_join base (natToStr d.year))
         (zfill 2 (natToStr d.month)) ∈ fs.files →
       ospath_join (ospath_join base (natToStr d.year))
         (zfill 2 (natToStr d.month)) ∉ fs.dirs →
       fsExists fs (ospath_join (ospath_join (ospath_join base (natToStr d.year))
         (zfill 2 (natToStr d.month))) (zfill 2 (natToStr d.day))) = false →
       ∃ e, create_backup_directory fs base d = .error e) ∧
    (∀ (fs : FS) (base : Str) (d : Date), base ≠ [] → base.getLast? ≠ some '/' →
       base ∈ fs.dirs →
       fsExists fs (ospath_join base (natToStr d.year)) = false →
       ospath_join base (natToStr d.year) ∈ fs.denied →
       create_backup_directory fs base d =
         .error (.permissionError (ospath_join base (natToStr d.year)))) ∧
    (∀ (fs : FS) (base : Str) (d : Date), base ≠ [] → base.getLast? ≠ some '/' →
       fsExists fs (ospath_join base (natToStr d.year)) = true →
       fsExists fs (ospath_join (ospath_join base (natToStr d.year))
         (zfill 2 (natToStr d.month))) = false →
       ospath_join (ospath_join base (natToStr d.year))
         (zfill 2 (natToStr d.month)) ∈ fs.denied →
       create_backup_directory fs base d =
         .error (.permissionError (ospath_join (ospath_join base (natToStr d.year))
           (zfill 2 (natToStr d.month))))) ∧
    (∀ (fs : FS) (base : Str) (d : Date), base ≠ [] → base.getLast? ≠ some '/' →
       fsExists fs (ospath_join base (natToStr d.year)) = true →
       fsExists fs (ospath_join (ospath_join base (natToStr d.year))
         (zfill 2 (natToStr d.month))) = true →
       fsExists fs (ospath_join (ospath_join (ospath_join base (natToStr d.year))
         (zfill 2 (natToStr d.month))) (zfill 2 (natToStr d.day))) = false →
       ospath_join (ospath_join (ospath_join base (natToStr d.year))
         (zfill 2 (natToStr d.month))) (zfill 2 (natToStr d.day)) ∈ fs.denied →
       create_backup_directory fs base d =
         .error (.permissionError (ospath_join (ospath_join (ospath_join base
           (natToStr d.year)) (zfill 2 (natToStr d.month)))
           (zfill 2 (natToStr d.day))))) ∧
    (∀ (env : Env) (e : PyErr),
       create_backup_directory env.fs cfg_backup_dir env.today = .error e →
       ∃ r : RunRecord, perform_backup env = .ok r ∧
         r.notifications = [(failSubject cfg_database, failBody cfg_database e)]) := by
  refine ⟨?_, ?_, ?_, ?_, ?_, ?_⟩
  · intro fs base d hb1 hb2 hYf hYnd hMmiss
    obtain ⟨hYnn, hparY, hMnn, hparM, hparD⟩ := cbd_dir_shape d hb1 hb2
    have hYex : fsExists fs (ospath_join base (natToStr d.year)) = true := by
      simp only [fsExists, decide_eq_true_eq]
      exact Or.inr hYf
    obtain ⟨e, hmk⟩ := mkdir_err_parent_file hMmiss (by rw [hparM]; exact hYnn)
      (by rw [hparM]; exact hYnd) (by rw [hparM]; exact hYf)
    exact ⟨e, cbd_step2_error hYex hMmiss
      (makedirs_err_of_parent_exists (by rw [hparM]; exact hYex) hmk)⟩
  · intro fs base d hb1 hb2 hYex hMf hMnd hDmiss
    obtain ⟨hYnn, hparY, hMnn, hparM, hparD⟩ := cbd_dir_shape d hb1 hb2
    have hMex : fsExists fs (ospath_join (ospath_join base (natToStr d.year))
        (zfill 2 (natToStr d.month))) = true := by
      simp only [fsExists, decide_eq_true_eq]
      exact Or.inr hMf
    obtain ⟨e, hmk⟩ := mkdir_err_parent_file hDmiss (by rw [hparD]; exact hMnn)
      (by rw [hparD]; exact hMnd) (by rw [hparD]; exact hMf)
    exact ⟨e, cbd_step3_error hYex hMex hDmiss
      (makedirs_err_of_parent_exists (by rw [hparD]; exact hMex) hmk)⟩
  · intro fs base d hb1 hb2 hbase hYmiss hden
    obtain ⟨hYnn, hparY, hMnn, hparM, hparD⟩ := cbd_dir_shape d hb1 hb2
    have hbex : fsExists fs base = true := by
      simp only [fsExists, decide_eq_true_eq]
      exact Or.inl hbase
    exact cbd_step1_error hYmiss (makedirs_err_of_parent_exists
      (by rw [hparY]; exact hbex) (mkdir_denied hYmiss hden))
  · intro fs base d hb1 hb2 hYex hMmiss hden
    obtain ⟨hYnn, hparY, hMnn, hparM, hparD⟩ := cbd_dir_shape d hb1 hb2
    exact cbd_step2_error hYex hMmiss (makedirs_err_of_parent_exists
      (by rw [hparM]; exact hYex) (mkdir_denied hMmiss hden))
  · intro fs base d hb1 hb2 hYex hMex hDmiss hden
    obtain ⟨hYnn, hparY, hMnn, hparM, hparD⟩ := cbd_dir_shape d hb1 hb2
    exact cbd_step3_error hYex hMex hDmiss (makedirs_err_of_parent_exists
      (by rw [hparD]; exact hMex) (mkdir_denied hDmiss hden))
  · intro env e h
    exact pb_err_notifications (pbt_dir_fail h) rfl

/-- A run whose only failure is the SMTP transport. -/
def envMailFail : Env :=
  { fs := fsAllDirs, today := ⟨2024, 5, 7⟩, now := ⟨2024, 5, 7, 8, 0, 15⟩,
    connectResult := .ok (), backupResult := .ok (),
    emailResult := .error "relay unreachable".data }

/-- Witness for C3: with an unreachable mail relay the job still returns
normally and the notifier swallows the transport failure. -/
theorem no_error_escapes_scheduler_witness :
    (∃ r : RunRecord, perform_backup envMailFail = .ok r) ∧
      send_email_notification envMailFail "s".data "b".data "f".data "t".data
        "h".data 587 "u".data "pw".data = false :=
  ⟨(no_error_escapes_scheduler envMailFail).1,
   (no_error_escapes_scheduler envMailFail).2 "relay unreachable".data "s".data
     "b".data "f".data "t".data "h".data 587 "u".data "pw".data rfl⟩

/-- A run in which creating the year directory is denied by the filesystem. -/
def envDirFail : Env :=
  { fs := ⟨["/path/to/backup".data], [], ["/path/to/backup/2024".data]⟩,
    today := ⟨2024, 5, 7⟩, now := ⟨2024, 5, 7, 8, 0, 15⟩,
    connectResult := .ok (), backupResult := .ok (), emailResult := .ok () }

/-- Witness for C6 at a concrete run whose directory preparation is denied. -/
theorem dir_failure_skips_connect_and_backup_witness :
    ∃ r : RunRecord, perform_backup envDirFail = .ok r ∧ r.connectCalled = false ∧
      r.backupCalled = false ∧
      r.notifications = [(failSubject cfg_database, failBody cfg_database
        (.permissionError "/path/to/backup/2024".data))] :=
  dir_failure_skips_connect_and_backup envDirFail
    (.permissionError "/path/to/backup/2024".data) (by decide)

/-- A run in which the database connection fails. -/
def envConnFail : Env :=
  { fs := fsAllDirs, today := ⟨2024, 5, 7⟩, now := ⟨2024, 5, 7, 8, 0, 15⟩,
    connectResult := .error "login failed".data, backupResult := .ok (),
    emailResult := .ok () }

/-- Witness for C9 at a concrete failing run: the handler locals are bound and
the failure notification is attempted. -/
theorem failure_handler_locals_bound_witness :
    tryLocals.database = some cfg_database ∧
      tryLocals.notify_email = some cfg_notify_email ∧
      tryLocals.smtp_server = some cfg_smtp_server ∧
      tryLocals.smtp_port = some cfg_smtp_port ∧
      tryLocals.smtp_user = some cfg_smtp_user ∧
      tryLocals.smtp_password = some cfg_smtp_password ∧
      ∃ r : RunRecord, perform_backup envConnFail = .ok r ∧
        r.notifications = [(failSubject cfg_database, failBody cfg_database
          (.connectionError "login failed".data))] :=
  failure_handler_locals_bound envConnFail (.connectionError "login failed".data)
    tryLocals { connectCalled := true } (by decide)

/-- A run over a 2025 date whose year-directory creation is denied. -/
def envDirFail2 : Env :=
  { fs := ⟨["/path/to/backup".data], [], ["/path/to/backup/2025".data]⟩,
    today := ⟨2025, 3, 4⟩, now := ⟨2025, 3, 4, 8, 0, 0⟩,
    connectResult := .ok (), backupResult := .ok (), emailResult := .ok () }

/-- Witness for the amended C5 at concrete filesystems: a year segment that is
a file, a month segment that is a file, denied creation of the year, the month
and the day segment, and the propagation of a directory error into the failure
notification. -/
theorem create_backup_directory_error_conditions_witness :
    (∃ e, create_backup_directory ⟨["c".data], ["c/2025".data], []⟩ "c".data
        ⟨2025, 3, 4⟩ = .error e) ∧
    (∃ e, create_backup_directory
        ⟨["c".data, "c/2025".data], ["c/2025/03".data], []⟩ "c".data
        ⟨2025, 3, 4⟩ = .error e) ∧
    (create_backup_directory ⟨["c".data], [], ["c/2025".data]⟩ "c".data
        ⟨2025, 3, 4⟩ = .error (.permissionError "c/2025".data)) ∧
    (create_backup_directory ⟨["c".data, "c/2025".data], [], ["c/2025/03".data]⟩
        "c".data ⟨2025, 3, 4⟩ = .error (.permissionError "c/2025/03".data)) ∧
    (create_backup_directory
        ⟨["c".data, "c/2025".data, "c/2025/03".data], [], ["c/2025/03/04".data]⟩
        "c".data ⟨2025, 3, 4⟩ = .error (.permissionError "c/2025/03/04".data)) ∧
    (∃ r : RunRecord, perform_backup envDirFail2 = .ok r ∧
      r.notifications = [(failSubject cfg_database, failBody cfg_database
        (.permissionError "/path/to/backup/2025".data))]) := by
  refine ⟨?_, ?_, ?_, ?_, ?_, ?_⟩
  · exact create_backup_directory_error_conditions.1
      ⟨["c".data], ["c/2025".data], []⟩ "c".data ⟨2025, 3, 4⟩ (by decide)
      (by decide) (by decide) (by decide) (by decide)
  · exact create_backup_directory_error_conditions.2.1
      ⟨["c".data, "c/2025".data], ["c/2025/03".data], []⟩ "c".data ⟨2025, 3, 4⟩
      (by decide) (by decide) (by decide) (by decide) (by decide) (by decide)
  · have h := create_backup_directory_error_conditions.2.2.1
      ⟨["c".data], [], ["c/2025".data]⟩ "c".data ⟨2025, 3, 4⟩ (by decide)
      (by decide) (by decide) (by decide) (by decide)
    simpa using h
  · have h := create_backup_directory_error_conditions.2.2.2.1
      ⟨["c".data, "c/2025".data], [], ["c/2025/03".data]⟩ "c".data ⟨2025, 3, 4⟩
      (by decide) (by decide) (by decide) (by decide) (by decide)
    simpa using h
  · have h := create_backup_directory_error_conditions.2.2.2.2.1
      ⟨["c".data, "c/2025".data, "c/2025/03".data], [], ["c/2025/03/04".data]⟩
      "c".data ⟨2025, 3, 4⟩ (by decide) (by decide) (by decide) (by decide)
      (by decide) (by decide)
    simpa using h
  · exact create_backup_directory_error_conditions.2.2.2.2.2 envDirFail2
      (.permissionError "/path/to/backup/2025".data) (by decide)

/-! ### C7 and C10: artifact naming -/

theorem backup_database_ok_eq {env : Env} {dbn bdir p : Str}
    (h : backup_database env dbn bdir = .ok p) :
    p = ospath_join bdir (dbn ++ "_backup_".data ++ strftimeTS env.now ++ ".bak".data) := by
  cases hb : env.backupResult with
  | error m => simp [backup_database, hb] at h
  | ok u =>
    cases u
    simp only [backup_database, hb, Except.ok.injEq] at h
    exact h.symm

/-- C7: the artifact produced by `backup_database` is named exactly
`{databaseId}_backup_{YYYYMMDD_HHMMSS}.bak`, joined under the partitioned
directory, and two runs with distinct second-level timestamps never collide on
the same artifact path. -/
theorem backup_artifact_name_format :
    (∀ (env : Env) (database_name backup_dir p : Str),
       backup_database env database_name backup_dir = .ok p →
       p = ospath_join backup_dir
         (database_name ++ "_backup_".data ++ strftimeTS env.now ++ ".bak".data)) ∧
    (∀ (env1 env2 : Env) (database_name backup_dir p1 p2 : Str),
       env1.now.validTime → env2.now.validTime → env1.now ≠ env2.now →
       backup_database env1 database_name backup_dir = .ok p1 →
       backup_database env2 database_name backup_dir = .ok p2 → p1 ≠ p2) := by
  constructor
  · intro env dbn bdir p h
    exact backup_database_ok_eq h
  · intro env1 env2 dbn bdir p1 p2 hv1 hv2 hne h1 h2 heq
    rw [backup_database_ok_eq h1, backup_database_ok_eq h2] at heq
    have hpre : dbn ++ "_backup_".data ≠ [] := by simp
    have hne1 : dbn ++ "_backup_".data ++ strftimeTS env1.now ≠ [] := by simp
    have hne2 : dbn ++ "_backup_".data ++ strftimeTS env2.now ≠ [] := by simp
    have hx := ospath_join_right_inj (x := dbn ++ "_backup_".data ++
        strftimeTS env1.now ++ ".bak".data)
      (y := dbn ++ "_backup_".data ++ strftimeTS env2.now ++ ".bak".data)
      (by rw [head?_append_left hne1, head?_append_left hne2,
        head?_append_left hpre, head?_append_left hpre]) heq
    exact hne (backup_filename_inj hv1 hv2 hx)

/-- A successful run used to exhibit concrete artifact names. -/
def envTS1 : Env :=
  { fs := fsAllDirs, today := ⟨2024, 5, 7⟩, now := ⟨2024, 5, 7, 8, 0, 15⟩,
    connectResult := .ok (), backupResult := .ok (), emailResult := .ok () }

/-- The same run one second later. -/
def envTS2 : Env :=
  { fs := fsAllDirs, today := ⟨2024, 5, 7⟩, now := ⟨2024, 5, 7, 8, 0, 16⟩,
    connectResult := .ok (), backupResult := .ok (), emailResult := .ok () }

/-- Witness for C7: the concrete artifact name and a non-collision one second
apart. -/
theorem backup_artifact_name_format_witness :
    ("b/YOUR_DATABASE_backup_20240507_080015.bak".data =
      ospath_join "b".data (cfg_database ++ "_backup_".data ++
        strftimeTS envTS1.now ++ ".bak".data)) ∧
    "b/YOUR_DATABASE_backup_20240507_080015.bak".data ≠
      "b/YOUR_DATABASE_backup_20240507_080016.bak".data :=
  ⟨backup_artifact_name_format.1 envTS1 cfg_database "b".data
      "b/YOUR_DATABASE_backup_20240507_080015.bak".data (by decide),
   backup_artifact_name_format.2 envTS1 envTS2 cfg_database "b".data
     "b/YOUR_DATABASE_backup_20240507_080015.bak".data
     "b/YOUR_DATABASE_backup_20240507_080016.bak".data
     (by decide) (by decide) (by decide) (by decide) (by decide)⟩

/-- C10: the partition directory is derived from the `datetime.date.today()`
read inside `create_backup_directory`, while the filename timestamp comes from
the later `datetime.datetime.now()` read inside `backup_database`: a
successful run writes
`base/YYYY(today)/MM/DD/{db}_backup_{strftime(now)}.bak`.  When the two reads
fall on different calendar days, the filename's `YYYYMMDD` component differs
from the date encoded by the `YYYY/MM/DD` directory. -/
theorem partition_date_vs_filename_date :
    (∀ (env : Env) (p : Str) (r : RunRecord),
       perform_backup_try env = .ok (p, r) →
       p = ospath_join (ospath_join (ospath_join (ospath_join cfg_backup_dir
             (natToStr env.today.year)) (zfill 2 (natToStr env.today.month)))
             (zfill 2 (natToStr env.today.day)))
           (cfg_database ++ "_backup_".data ++ strftimeTS env.now ++ ".bak".data)) ∧
    (∀ (td : Date) (tn : DateTime), td.validDate → tn.validTime →
       1000 ≤ td.year →
       (td.year, td.month, td.day) ≠ (tn.year, tn.month, tn.day) →
       natToStr td.year ++ zfill 2 (natToStr td.month) ++
           zfill 2 (natToStr td.day) ≠
         pad4 tn.year ++ pad2 tn.month ++ pad2 tn.day) := by
  constructor
  · intro env p r h
    cases hd : create_backup_directory env.fs cfg_backup_dir env.today with
    | error e => rw [pbt_dir_fail hd] at h; simp at h
    | ok v =>
      obtain ⟨bdir, fs1⟩ := v
      cases hc : env.connectResult with
      | error m => rw [pbt_conn_fail hd hc] at h; simp at h
      | ok u =>
        cases u
        cases hb : env.backupResult with
        | error m => rw [pbt_backup_fail hd hc hb] at h; simp at h
        | ok u2 =>
          cases u2
          rw [pbt_success hd hc hb] at h
          have hp : p = ospath_join bdir (cfg_database ++ "_backup_".data ++
              strftimeTS env.now ++ ".bak".data) := by
            have h' := h
            simp only [Except.ok.injEq, Prod.mk.injEq] at h'
            exact h'.1.symm
          obtain ⟨hbd, -, -, -⟩ := cbd_ok_inv hd
          rw [hp, hbd]
  · intro td tn hvd hvt hy4 hne heq
    obtain ⟨v1, v2, v3, v4, v5, v6⟩ := hvd
    obtain ⟨w1, w2, w3, w4, w5, w6, -, -, -⟩ := hvt
    rw [natToStr_eq_pad4 hy4 (by omega),
        zfill_natToStr_eq_pad2 td.month (by omega),
        zfill_natToStr_eq_pad2 td.day (by omega)] at heq
    obtain ⟨hym, hd2⟩ := List.append_inj heq rfl
    obtain ⟨hy, hmo⟩ := List.append_inj hym rfl
    have ey := pad4_inj (by omega) (by omega) hy
    have emo := pad2_inj (by omega) (by omega) hmo
    have ed := pad2_inj (by omega) (by omega) hd2
    exact hne (by rw [ey, emo, ed])

/-- A run whose directory date and filename timestamp straddle midnight. -/
def envMidnight : Env :=
  { fs := fsAllDirs, today := ⟨2024, 5, 7⟩, now := ⟨2024, 5, 8, 0, 0, 1⟩,
    connectResult := .ok (), backupResult := .ok (), emailResult := .ok () }

/-- Witness for C10: the concrete artifact path of a midnight-straddling run,
and distinct date stamps for its two clock reads. -/
theorem partition_date_vs_filename_date_witness :
    ("/path/to/backup/2024/05/07/YOUR_DATABASE_backup_20240508_000001.bak".data =
      ospath_join (ospath_join (ospath_join (ospath_join cfg_backup_dir
          (natToStr envMidnight.today.year))
          (zfill 2 (natToStr envMidnight.today.month)))
          (zfill 2 (natToStr envMidnight.today.day)))
        (cfg_database ++ "_backup_".data ++ strftimeTS envMidnight.now ++
          ".bak".data)) ∧
    natToStr 2024 ++ zfill 2 (natToStr 5) ++ zfill 2 (natToStr 7) ≠
      pad4 2024 ++ pad2 5 ++ pad2 8 :=
  ⟨partition_date_vs_filename_date.1 envMidnight
      "/path/to/backup/2024/05/07/YOUR_DATABASE_backup_20240508_000001.bak".data
      ⟨true, true, true, true,
        [(successSubject, successBody
          "/path/to/backup/2024/05/07/YOUR_DATABASE_backup_20240508_000001.bak".data)]⟩
      (by decide),
   partition_date_vs_filename_date.2 ⟨2024, 5, 7⟩ ⟨2024, 5, 8, 0, 0, 1⟩
     (by decide) (by decide) (by decide) (by decide)⟩
